import Mathlib

/-!
Shallow embedding of the ledger and settlement engine of the `swap_backend`
repository (Django project `montero`, app `crypto_app`).

Conventions of the embedding:
* Monetary values and prices are rationals (`ℚ`).  The source computes with
  Python `Decimal` (arbitrary-precision decimal), converting stored floats
  through `Decimal(str(...))` before any settlement arithmetic.
* Users are identified by natural numbers; the balance store
  (`UserPortfolio`) is a total map from user ids to portfolio records.
* Django rows become Lean structures keeping the source field names;
  status strings become an inductive type.
* Each settlement operation returns, besides its outcome and updated state,
  the ordered list of balance mutations it performed, as `(user, delta)`
  pairs (credits positive, debits negative).  Applying the log to the input
  balances yields the output balances.
* A `@transaction.atomic` block guarded by `select_for_update` on a status
  filter is modelled as one atomic step: concurrent attempts serialize, and
  an attempt whose status filter fails observes `DoesNotExist`
  (the "not found / already processed" StateConflict outcome).
-/

/-- Status strings used by the transaction models in `crypto_app/models.py`. -/
inductive TxStatus
  | PENDING
  | APPROVED
  | REJECTED
  | COMPLETED
  | IN_PROGRESS
  | CANCELLED
  deriving DecidableEq, Repr

/-- The fields of `SyntheticAsset` (models.py) read by the settlement path. -/
structure SyntheticAsset where
  id : Nat
  symbol : String
  price_usd : ℚ
  deriving DecidableEq, Repr

/-- The fields of `UserPortfolio` (models.py) used by the settlement engine. -/
structure UserPortfolio where
  balance_usd : ℚ
  is_frozen : Bool
  is_merchant : Bool
  initial_deposit_amount : Option ℚ
  deriving DecidableEq, Repr

/-- `Affiliate` (models.py): the referral edge, keyed by the referred user. -/
structure Affiliate where
  referrer : Nat
  has_funded_wallet : Bool
  deriving DecidableEq, Repr

/-- The mutable ledger state shared by the settlement operations:
per-user portfolios and the referral edges (keyed by the referred user). -/
structure LedgerState where
  portfolios : Nat → UserPortfolio
  affiliates : Nat → Option Affiliate

/-- Add `amt` (possibly negative) to user `u`'s `balance_usd`;
models `portfolio.balance_usd += amt; portfolio.save()`. -/
def creditBalance (s : LedgerState) (u : Nat) (amt : ℚ) : LedgerState :=
  { s with
    portfolios := fun v =>
      if v = u then
        { s.portfolios u with balance_usd := (s.portfolios u).balance_usd + amt }
      else s.portfolios v }

/-- A balance mutation: the affected user and the signed delta. -/
abbrev BalanceMutation := Nat × ℚ

/-- Sum of the signed deltas of a mutation log. -/
def logSum (log : List BalanceMutation) : ℚ :=
  (log.map Prod.snd).sum

/-- Apply a mutation log to a ledger state, in order. -/
def applyLog (s : LedgerState) : List BalanceMutation → LedgerState
  | [] => s
  | (u, amt) :: rest => applyLog (creditBalance s u amt) rest

/-- `Trade` rows (models.py) recorded by swap settlement for audit. -/
inductive TradeType
  | BUY
  | SELL
  deriving DecidableEq, Repr

structure Trade where
  user : Nat
  asset : Nat
  trade_type : TradeType
  quantity : ℚ
  price_at_trade : ℚ
  deriving DecidableEq, Repr

/-- `SwapRequest` (models.py): the fields the settlement algorithm touches.
Times are integer epoch seconds (the source stores timezone-aware datetimes
and compares them after normalising to Africa/Lagos). -/
structure SwapRequest where
  user : Nat
  from_asset : Nat
  to_asset : Nat
  swap_back_asset : Nat
  swap_amount : ℚ
  swap_back_amount : ℚ
  original_to_asset_price : ℚ
  swap_time : Int
  status : TxStatus
  deriving DecidableEq, Repr

/-- Outcomes of `process_swap` (tasks.py). `notFound` is the
`SwapRequest.DoesNotExist` branch ("Swap not found"), raised when the
status filter `status__in=["PENDING","APPROVED","IN_PROGRESS"]` rejects
the row — the benign StateConflict outcome. -/
inductive SwapOutcome
  | completed
  | notDueYet
  | notFound
  deriving DecidableEq, Repr

structure SwapResult where
  outcome : SwapOutcome
  swap : SwapRequest
  state : LedgerState
  new_trades : List Trade
  log : List BalanceMutation

/-- `process_swap` from `crypto_app/tasks.py` (lines 31–135).

The whole body runs inside `@transaction.atomic` with
`select_for_update` on the swap row filtered by
`status__in=["PENDING","APPROVED","IN_PROGRESS"]`, so one call is one
atomic step.  When due (or `force_process`), it transitions the row
through `IN_PROGRESS` to `COMPLETED`, computes

  `to_amount = from_amount * from_price / original_to_price`
  `swap_back_amount = to_amount * latest_to_price / back_price`

credits the requester's `balance_usd` with `swap_back_amount`, and records
four audit `Trade` legs. -/
def process_swap (s : LedgerState) (assets : Nat → SyntheticAsset)
    (swap : SwapRequest) (current_time : Int) (force_process : Bool) :
    SwapResult :=
  if swap.status = .PENDING ∨ swap.status = .APPROVED ∨ swap.status = .IN_PROGRESS then
    if ¬ force_process ∧ current_time < swap.swap_time then
      { outcome := .notDueYet, swap := swap, state := s, new_trades := [], log := [] }
    else
      let from_asset := assets swap.from_asset
      let swap_back_asset := assets swap.swap_back_asset
      let to_asset := assets swap.to_asset
      let from_amount := swap.swap_amount
      let from_price := from_asset.price_usd
      let back_price := swap_back_asset.price_usd
      let original_to_price := swap.original_to_asset_price
      let latest_to_price := to_asset.price_usd
      let to_amount := from_amount * from_price / original_to_price
      let swap_back_amount := to_amount * latest_to_price / back_price
      let swap' : SwapRequest :=
        { swap with swap_back_amount := swap_back_amount, status := .COMPLETED }
      let s' := creditBalance s swap.user swap_back_amount
      let trades : List Trade :=
        [ { user := swap.user, asset := swap.from_asset, trade_type := .SELL,
            quantity := from_amount, price_at_trade := from_price },
          { user := swap.user, asset := swap.to_asset, trade_type := .BUY,
            quantity := to_amount, price_at_trade := original_to_price },
          { user := swap.user, asset := swap.to_asset, trade_type := .SELL,
            quantity := to_amount, price_at_trade := latest_to_price },
          { user := swap.user, asset := swap.swap_back_asset, trade_type := .BUY,
            quantity := swap_back_amount, price_at_trade := back_price } ]
      { outcome := .completed, swap := swap', state := s', new_trades := trades,
        log := [(swap.user, swap_back_amount)] }
  else
    { outcome := .notFound, swap := swap, state := s, new_trades := [], log := [] }

/-- Profit/loss of a completed swap as computed at tasks.py line 102:
`profit_loss = swap_back_amount - from_amount`. -/
def swap_profit_loss (swap : SwapRequest) : ℚ :=
  swap.swap_back_amount - swap.swap_amount

/-- Deposit methods (models.py `Deposit.METHOD_CHOICES`). -/
inductive DepositMethod
  | BANK_TRANSFER
  | BYBIT
  | ON_CHAIN
  | INTERNAL
  deriving DecidableEq, Repr

/-- The structured fee annotation written into `deposit_notes` as JSON at
creation of a merchant-mediated deposit (views.py lines 558–563). -/
structure DepositFeeNotes where
  fee_percentage : ℚ
  fee_amount : ℚ
  total_amount_with_fee : ℚ
  base_amount : ℚ
  deriving DecidableEq, Repr

/-- `Deposit` (models.py): the fields the settlement engine reads. -/
structure Deposit where
  user : Nat
  amount : ℚ
  method : DepositMethod
  merchant : Option Nat
  merchant_action_required : Bool
  status : TxStatus
  deposit_notes : Option DepositFeeNotes
  deriving DecidableEq, Repr

/-- `Deposit._process_referral_bonus` (models.py lines 349–406).
Sets the depositor's `initial_deposit_amount` when still unset; then, when
the depositor has a referral edge with `has_funded_wallet = false`, flips
the flag to true and credits the referrer with 15% of this deposit's
amount (`Decimal('0.15')`). -/
def process_referral_bonus (s : LedgerState) (d : Deposit) :
    LedgerState × List BalanceMutation :=
  let p := s.portfolios d.user
  let s1 : LedgerState :=
    if p.initial_deposit_amount = none then
      { s with
        portfolios := fun v =>
          if v = d.user then { p with initial_deposit_amount := some d.amount }
          else s.portfolios v }
    else s
  match s1.affiliates d.user with
  | none => (s1, [])
  | some aff =>
    if aff.has_funded_wallet then
      (s1, [])
    else
      let s2 : LedgerState :=
        { s1 with
          affiliates := fun v =>
            if v = d.user then some { aff with has_funded_wallet := true }
            else s1.affiliates v }
      let bonus_amount := d.amount * (15 / 100 : ℚ)
      (creditBalance s2 aff.referrer bonus_amount, [(aff.referrer, bonus_amount)])

/-- `Deposit.save` (models.py lines 326–347) restricted to its side effect:
when the status transitions to `APPROVED` from a non-`APPROVED` old status
(or a new row is created already `APPROVED`), the referral bonus fires. -/
def deposit_save (s : LedgerState) (old_status : TxStatus) (d : Deposit) :
    LedgerState × List BalanceMutation :=
  if old_status ≠ .APPROVED ∧ d.status = .APPROVED then
    process_referral_bonus s d
  else (s, [])

/-- Outcome of `TransactionProcessor.process_deposit`
(transaction_processor.py): `notFoundOrProcessed` is the
`Deposit.DoesNotExist` branch of the `select_for_update` fetch filtered by
`status='PENDING'` — the benign StateConflict outcome. -/
inductive ProcOutcome
  | success
  | notFoundOrProcessed
  deriving DecidableEq, Repr

structure DepositResult where
  outcome : ProcOutcome
  deposit : Deposit
  state : LedgerState
  log : List BalanceMutation

/-- `TransactionProcessor.process_deposit` (transaction_processor.py lines
62–112): inside `@transaction.atomic`, fetch the deposit with
`select_for_update` filtered by `status='PENDING'`; set it `APPROVED`
(the save triggers the referral bonus), then credit the depositor's
`balance_usd` with `deposit.amount`. -/
def process_deposit (s : LedgerState) (d : Deposit) : DepositResult :=
  if d.status = .PENDING then
    let d' : Deposit := { d with status := .APPROVED }
    let bonus := deposit_save s d.status d'
    let s2 := creditBalance bonus.1 d.user d.amount
    { outcome := .success, deposit := d', state := s2,
      log := bonus.2 ++ [(d.user, d.amount)] }
  else
    { outcome := .notFoundOrProcessed, deposit := d, state := s, log := [] }

/-- Outcomes of the deposit-creation endpoint `deposit_funds` (views.py). -/
inductive DepositCreateOutcome
  | created
  | frozen
  | merchantNotActive
  deriving DecidableEq, Repr

/-- The merchant-mediated (`BANK_TRANSFER`) branch of `deposit_funds`
(views.py lines 478–592).  After the frozen-account guard and the
merchant-eligibility check, it computes the 3.5% fee
(`fee_amount = base_amount * Decimal('0.035')`), records the fee
annotation in `deposit_notes`, and creates the deposit `PENDING` with
`merchant_action_required = true`, storing the base amount (without fee).
No balance is touched at creation. -/
def deposit_funds_bank (s : LedgerState) (user merchant : Nat) (amount : ℚ) :
    DepositCreateOutcome × Option Deposit :=
  if (s.portfolios user).is_frozen then
    (.frozen, none)
  else if ¬ (s.portfolios merchant).is_merchant then
    (.merchantNotActive, none)
  else
    let base_amount := amount
    let fee_amount := base_amount * (35 / 1000 : ℚ)
    let total_amount_with_fee := base_amount + fee_amount
    (.created, some
      { user := user, amount := base_amount, method := .BANK_TRANSFER,
        merchant := some merchant, merchant_action_required := true,
        status := .PENDING,
        deposit_notes := some
          { fee_percentage := 35 / 10, fee_amount := fee_amount,
            total_amount_with_fee := total_amount_with_fee,
            base_amount := base_amount } })

/-- Outcomes of `merchant_approve_deposit` (views.py lines 1752–1835).
`notFound` is the `Deposit.DoesNotExist` branch of the guarded fetch
(`merchant=request.user, status='PENDING', merchant_action_required=True`). -/
inductive ApproveOutcome
  | success
  | notFound
  | insufficientBalance
  deriving DecidableEq, Repr

structure ApproveResult where
  outcome : ApproveOutcome
  deposit : Deposit
  state : LedgerState
  log : List BalanceMutation

/-- `merchant_approve_deposit` (views.py lines 1752–1835): inside
`transaction.atomic`, fetch the deposit guarded by
`merchant=request.user, status='PENDING', merchant_action_required=True`;
read `base_amount` back from the fee annotation (never recomputed); reject
with no mutation when the merchant's balance is below `base_amount`;
otherwise debit the merchant by exactly `base_amount` (the merchant keeps
the fee implicitly), set the deposit `APPROVED` (the save fires the
referral bonus), and credit the depositor with exactly `base_amount`.
Note: the view performs no frozen-flag check on the merchant. -/
def merchant_approve_deposit (s : LedgerState) (d : Deposit) (requester : Nat) :
    ApproveResult :=
  if d.merchant = some requester ∧ d.status = .PENDING ∧ d.merchant_action_required then
    let base_amount : ℚ :=
      match d.deposit_notes with
      | some notes => notes.base_amount
      | none => d.amount
    if (s.portfolios requester).balance_usd < base_amount then
      { outcome := .insufficientBalance, deposit := d, state := s, log := [] }
    else
      let s1 := creditBalance s requester (-base_amount)
      let d' : Deposit := { d with status := .APPROVED, merchant_action_required := false }
      let bonus := deposit_save s1 d.status d'
      let s3 := creditBalance bonus.1 d.user base_amount
      { outcome := .success, deposit := d', state := s3,
        log := (requester, -base_amount) :: bonus.2 ++ [(d.user, base_amount)] }
  else
    { outcome := .notFound, deposit := d, state := s, log := [] }

/-- `merchant_decline_deposit` (views.py lines 1841–1886): same guarded
fetch as approval; sets the deposit `REJECTED` and clears
`merchant_action_required`; touches no balance. -/
def merchant_decline_deposit (s : LedgerState) (d : Deposit) (requester : Nat) :
    ApproveResult :=
  if d.merchant = some requester ∧ d.status = .PENDING ∧ d.merchant_action_required then
    let d' : Deposit := { d with status := .REJECTED, merchant_action_required := false }
    { outcome := .success, deposit := d', state := s, log := [] }
  else
    { outcome := .notFound, deposit := d, state := s, log := [] }

/-- Withdrawal methods (models.py `Withdrawal.METHOD_CHOICES`). -/
inductive WithdrawalMethod
  | INTERNAL
  | BYBIT
  | ON_CHAIN
  | BANK
  deriving DecidableEq, Repr

/-- The fee annotation written into `withdrawal_notes` as JSON when a
P2P bank withdrawal is created (views.py lines 710–715).  The source
stores the literal label `fee_percentage: 3.5` while computing the fee
with `Decimal('0.05')`. -/
structure WithdrawalFeeNotes where
  fee_percentage : ℚ
  fee_amount : ℚ
  user_receives : ℚ
  total_amount_processed : ℚ
  deriving DecidableEq, Repr

/-- `Withdrawal` (models.py): the fields the settlement engine reads. -/
structure Withdrawal where
  user : Nat
  amount : ℚ
  method : WithdrawalMethod
  merchant : Option Nat
  user_confirmation_required : Bool
  status : TxStatus
  withdrawal_notes : Option WithdrawalFeeNotes
  deriving DecidableEq, Repr

/-- Outcomes of the creation endpoint `withdraw_funds` (views.py 641–832). -/
inductive WithdrawOutcome
  | created
  | frozen
  | invalidAmount
  | insufficientBalance
  | recipientNotFound
  | selfTransfer
  deriving DecidableEq, Repr

structure WithdrawResult where
  outcome : WithdrawOutcome
  withdrawal : Option Withdrawal
  state : LedgerState
  log : List BalanceMutation

/-- Request shape accepted by `withdraw_funds`: the method together with
the method-specific data the view reads.  For `INTERNAL` the recipient is
the result of the account-number lookup (`none` when no portfolio matches);
for `BANK` the approved merchant chosen by the user. -/
inductive WithdrawRequest
  | BANK (merchant : Nat)
  | INTERNAL (recipient : Option Nat)
  | EXTERNAL
  deriving DecidableEq, Repr

/-- `withdraw_funds` (views.py lines 641–832).  Guards, in source order:
frozen account (403), `amount <= 0`, then under `transaction.atomic` with
the sender's portfolio locked, `balance_usd < amount` (insufficient).
Then by method:
* `BANK` (P2P): `fee_amount = amount * Decimal('0.05')`,
  `user_receives = amount - fee_amount`; the record is created `PENDING`
  with `user_confirmation_required = true` and the fee annotation; the full
  gross `amount` is escrowed from the sender.
* `INTERNAL`: recipient looked up by account number (error when missing or
  equal to the sender); debit sender, credit recipient immediately; the
  record is created directly `COMPLETED`.
* other methods (external payout): the record is created `PENDING` and the
  full `amount` is escrowed from the sender. -/
def withdraw_funds (s : LedgerState) (user : Nat) (amount : ℚ)
    (req : WithdrawRequest) : WithdrawResult :=
  if (s.portfolios user).is_frozen then
    { outcome := .frozen, withdrawal := none, state := s, log := [] }
  else if amount ≤ 0 then
    { outcome := .invalidAmount, withdrawal := none, state := s, log := [] }
  else if (s.portfolios user).balance_usd < amount then
    { outcome := .insufficientBalance, withdrawal := none, state := s, log := [] }
  else
    match req with
    | .BANK merchant =>
      let fee_amount := amount * (5 / 100 : ℚ)
      let user_receives := amount - fee_amount
      let w : Withdrawal :=
        { user := user, amount := amount, method := .BANK,
          merchant := some merchant, user_confirmation_required := true,
          status := .PENDING,
          withdrawal_notes := some
            { fee_percentage := 35 / 10, fee_amount := fee_amount,
              user_receives := user_receives,
              total_amount_processed := amount } }
      { outcome := .created, withdrawal := some w,
        state := creditBalance s user (-amount), log := [(user, -amount)] }
    | .INTERNAL recipient =>
      match recipient with
      | none =>
        { outcome := .recipientNotFound, withdrawal := none, state := s, log := [] }
      | some r =>
        if r = user then
          { outcome := .selfTransfer, withdrawal := none, state := s, log := [] }
        else
          let s1 := creditBalance s user (-amount)
          let s2 := creditBalance s1 r amount
          let w : Withdrawal :=
            { user := user, amount := amount, method := .INTERNAL,
              merchant := none, user_confirmation_required := false,
              status := .COMPLETED, withdrawal_notes := none }
          { outcome := .created, withdrawal := some w, state := s2,
            log := [(user, -amount), (r, amount)] }
    | .EXTERNAL =>
      let w : Withdrawal :=
        { user := user, amount := amount, method := .BYBIT,
          merchant := none, user_confirmation_required := false,
          status := .PENDING, withdrawal_notes := none }
      { outcome := .created, withdrawal := some w,
        state := creditBalance s user (-amount), log := [(user, -amount)] }

structure WithdrawalActionResult where
  outcome : ProcOutcome
  withdrawal : Withdrawal
  state : LedgerState
  log : List BalanceMutation

/-- `user_decline_withdrawal` (views.py lines 1956–2009): inside
`transaction.atomic`, fetch the withdrawal guarded by
`user=request.user, status='PENDING', user_confirmation_required=True`;
refund the requester the full gross `withdrawal.amount` and set the record
`REJECTED`. -/
def user_decline_withdrawal (s : LedgerState) (w : Withdrawal) (requester : Nat) :
    WithdrawalActionResult :=
  if w.user = requester ∧ w.status = .PENDING ∧ w.user_confirmation_required then
    let s1 := creditBalance s requester w.amount
    let w' : Withdrawal :=
      { w with status := .REJECTED, user_confirmation_required := false }
    { outcome := .success, withdrawal := w', state := s1,
      log := [(requester, w.amount)] }
  else
    { outcome := .notFoundOrProcessed, withdrawal := w, state := s, log := [] }

/-- `reject_withdrawal` (views.py lines 161–176), the admin endpoint routed
at `withdraw/reject/<id>/`: fetch the withdrawal guarded by
`status="PENDING"` and set it `REJECTED`.  The body performs no balance
mutation: the escrowed amount is not credited back. -/
def reject_withdrawal (s : LedgerState) (w : Withdrawal) :
    WithdrawalActionResult :=
  if w.status = .PENDING then
    let w' : Withdrawal := { w with status := .REJECTED }
    { outcome := .success, withdrawal := w', state := s, log := [] }
  else
    { outcome := .notFoundOrProcessed, withdrawal := w, state := s, log := [] }

/-- The per-row body of the admin-panel bulk action `reject_withdrawals`
(admin.py lines 409–442): refund the locked amount to the user's balance,
set the record `REJECTED` and clear `user_confirmation_required`. -/
def admin_reject_withdrawal (s : LedgerState) (w : Withdrawal) :
    WithdrawalActionResult :=
  if w.status = .PENDING then
    let s1 := creditBalance s w.user w.amount
    let w' : Withdrawal :=
      { w with status := .REJECTED, user_confirmation_required := false }
    { outcome := .success, withdrawal := w', state := s1,
      log := [(w.user, w.amount)] }
  else
    { outcome := .notFoundOrProcessed, withdrawal := w, state := s, log := [] }

/-- Outcomes of the swap-creation endpoint `swap_tokens`
(views.py lines 1069–1228), in the order the view checks them. -/
inductive SwapCreateOutcome
  | created
  | frozen
  | usdtAssetMissing
  | assetNotFound
  | fromAssetNotUSDT
  | backAssetNotUSDT
  | sameAsset
  | invalidAmount
  | insufficientBalance
  | timeNotInFuture
  | durationTooShort
  | durationTooLong
  deriving DecidableEq, Repr

structure SwapCreateResult where
  outcome : SwapCreateOutcome
  swap : Option SwapRequest
  state : LedgerState
  log : List BalanceMutation

/-- Look an asset up by primary key (`get_object_or_404(SyntheticAsset, id=...)`). -/
def findAsset (assets : List SyntheticAsset) (i : Nat) : Option SyntheticAsset :=
  assets.find? (fun a => a.id = i)

/-- `swap_tokens` (views.py lines 1069–1228), inside `@transaction.atomic`.
Checks in source order: frozen account; the `USDT` asset exists; the three
assets resolve by id; `from_asset.symbol` and `swap_back_asset.symbol` must
be `USDT`; `from_asset == to_asset` is rejected ("Cannot swap the same
asset", primary-key equality); `swap_amount <= 0` rejected; sender balance
locked and checked; the settlement time must be strictly in the future, at
least 5 minutes and at most 30 days (43200 minutes) away.  On success the
destination asset's current price is captured as `original_to_asset_price`,
the record is persisted `PENDING`, and the amount is escrowed from the
requester.  Times are epoch seconds: 5 minutes = 300 s, 30 days = 2592000 s. -/
def swap_tokens (s : LedgerState) (assets : List SyntheticAsset) (user : Nat)
    (from_id to_id back_id : Nat) (swap_amount : ℚ) (swap_time current_time : Int) :
    SwapCreateResult :=
  if (s.portfolios user).is_frozen then
    { outcome := .frozen, swap := none, state := s, log := [] }
  else if ¬ assets.any (fun a => a.symbol = "USDT") then
    { outcome := .usdtAssetMissing, swap := none, state := s, log := [] }
  else
    match findAsset assets from_id, findAsset assets to_id, findAsset assets back_id with
    | some from_asset, some to_asset, some swap_back_asset =>
      if from_asset.symbol ≠ "USDT" then
        { outcome := .fromAssetNotUSDT, swap := none, state := s, log := [] }
      else if swap_back_asset.symbol ≠ "USDT" then
        { outcome := .backAssetNotUSDT, swap := none, state := s, log := [] }
      else if from_asset.id = to_asset.id then
        { outcome := .sameAsset, swap := none, state := s, log := [] }
      else if swap_amount ≤ 0 then
        { outcome := .invalidAmount, swap := none, state := s, log := [] }
      else if (s.portfolios user).balance_usd < swap_amount then
        { outcome := .insufficientBalance, swap := none, state := s, log := [] }
      else if swap_time ≤ current_time then
        { outcome := .timeNotInFuture, swap := none, state := s, log := [] }
      else if swap_time - current_time < 300 then
        { outcome := .durationTooShort, swap := none, state := s, log := [] }
      else if swap_time - current_time > 2592000 then
        { outcome := .durationTooLong, swap := none, state := s, log := [] }
      else
        let sw : SwapRequest :=
          { user := user, from_asset := from_asset.id, to_asset := to_asset.id,
            swap_back_asset := swap_back_asset.id, swap_amount := swap_amount,
            swap_back_amount := 0,
            original_to_asset_price := to_asset.price_usd,
            swap_time := swap_time, status := .PENDING }
        { outcome := .created, swap := some sw,
          state := creditBalance s user (-swap_amount),
          log := [(user, -swap_amount)] }
    | _, _, _ =>
      { outcome := .assetNotFound, swap := none, state := s, log := [] }

/-- Database column kinds used for monetary fields in `crypto_app/models.py`. -/
inductive DjangoFieldKind
  | FloatField
  | DecimalField (max_digits : Nat) (decimal_places : Nat)
  deriving DecidableEq, Repr

/-- The monetary columns of the persisted records, with the column kind
each one is declared with in `crypto_app/models.py`. -/
def monetary_model_fields : List (String × DjangoFieldKind) :=
  [ ("UserPortfolio.balance_usd", .DecimalField 20 4),
    ("UserPortfolio.initial_deposit_amount", .DecimalField 20 4),
    ("Transaction.amount", .FloatField),
    ("SwapRequest.swap_amount", .FloatField),
    ("SwapRequest.swap_back_amount", .FloatField),
    ("SwapRequest.original_to_asset_price", .DecimalField 20 10),
    ("SyntheticAsset.price_usd", .FloatField),
    ("SyntheticAsset.prev_price_usd", .FloatField),
    ("Trade.quantity", .FloatField),
    ("Trade.price_at_trade", .FloatField),
    ("CandlestickData.open_price", .DecimalField 20 10),
    ("CandlestickData.close_price", .DecimalField 20 10) ]

/-- Predicate: the column is a fixed-point decimal column. -/
def DjangoFieldKind.isDecimal : DjangoFieldKind → Bool
  | .DecimalField _ _ => true
  | .FloatField => false

/-- Run `n` sequential settlement attempts of `process_swap` on the same
swap row (Scenario D: concurrent force-settlement calls serialized by
`select_for_update` inside `transaction.atomic`), collecting each
attempt's outcome and balance-mutation log. -/
def run_swap_attempts (assets : Nat → SyntheticAsset) (current_time : Int)
    (force_process : Bool) :
    Nat → LedgerState → SwapRequest →
    LedgerState × SwapRequest × List (SwapOutcome × List BalanceMutation)
  | 0, s, sw => (s, sw, [])
  | n + 1, s, sw =>
    let r := process_swap s assets sw current_time force_process
    let (s', sw', outs) := run_swap_attempts assets current_time force_process n r.state r.swap
    (s', sw', (r.outcome, r.log) :: outs)

/-- Run `n` sequential settlement attempts of
`TransactionProcessor.process_deposit` on the same deposit row. -/
def run_deposit_attempts :
    Nat → LedgerState → Deposit →
    LedgerState × Deposit × List (ProcOutcome × List BalanceMutation)
  | 0, s, d => (s, d, [])
  | n + 1, s, d =>
    let r := process_deposit s d
    let (s', d', outs) := run_deposit_attempts n r.state r.deposit
    (s', d', (r.outcome, r.log) :: outs)

/-- Run `n` sequential attempts of `user_decline_withdrawal` on the same
withdrawal row. -/
def run_decline_attempts (requester : Nat) :
    Nat → LedgerState → Withdrawal →
    LedgerState × Withdrawal × List (ProcOutcome × List BalanceMutation)
  | 0, s, w => (s, w, [])
  | n + 1, s, w =>
    let r := user_decline_withdrawal s w requester
    let (s', w', outs) := run_decline_attempts requester n r.state r.withdrawal
    (s', w', (r.outcome, r.log) :: outs)

/-- Shorthand for the settlement-time return amount computed by
`process_swap`: `(swap_amount * from_price / original_to_price) *
latest_to_price / back_price`. -/
def settlement_return (assets : Nat → SyntheticAsset) (swap : SwapRequest) : ℚ :=
  swap.swap_amount * (assets swap.from_asset).price_usd / swap.original_to_asset_price *
    (assets swap.to_asset).price_usd / (assets swap.swap_back_asset).price_usd

/-- The price oracle of Scenario C at settlement time: `USDT` (asset 0)
at 1.00 and the destination asset (asset 1) at 2.20. -/
def scenarioC_assets : Nat → SyntheticAsset
  | 0 => { id := 0, symbol := "USDT", price_usd := 1 }
  | 1 => { id := 1, symbol := "MOON", price_usd := 11 / 5 }
  | n => { id := n, symbol := "OTHER", price_usd := 1 }

/-- A ledger whose user 7 holds no funds (the 100 units were escrowed at
swap creation) and has no referral edge. -/
def scenarioC_state : LedgerState :=
  { portfolios := fun _ =>
      { balance_usd := 0, is_frozen := false, is_merchant := false,
        initial_deposit_amount := none },
    affiliates := fun _ => none }

/-- Scenario C's pending swap: 100 units, destination price captured at
creation `original_to_asset_price = 2.00`, due at time 1000. -/
def scenarioC_swap : SwapRequest :=
  { user := 7, from_asset := 0, to_asset := 1, swap_back_asset := 0,
    swap_amount := 100, swap_back_amount := 0, original_to_asset_price := 2,
    swap_time := 1000, status := .PENDING }

/-- A pending deposit of 1000 for user 1, used in concrete witnesses. -/
def witness_deposit : Deposit :=
  { user := 1, amount := 1000, method := .BANK_TRANSFER, merchant := some 2,
    merchant_action_required := true, status := .PENDING,
    deposit_notes := some
      { fee_percentage := 35 / 10, fee_amount := 35,
        total_amount_with_fee := 1035, base_amount := 1000 } }

/-- A pending escrowed P2P withdrawal of 100 for user 1 awaiting the
user's confirmation, used in concrete witnesses. -/
def witness_withdrawal : Withdrawal :=
  { user := 1, amount := 100, method := .BANK, merchant := some 2,
    user_confirmation_required := true, status := .PENDING,
    withdrawal_notes := some
      { fee_percentage := 35 / 10, fee_amount := 5, user_receives := 95,
        total_amount_processed := 100 } }

/-- The base amount read back at settlement from the fee annotation
(`fee_info.get('base_amount', deposit.amount)` in views.py line 1766). -/
def deposit_base (d : Deposit) : ℚ :=
  match d.deposit_notes with
  | some notes => notes.base_amount
  | none => d.amount

/-- Scenario B's ledger: user 1 is the depositor (balance 0), user 2 an
active merchant with balance 5000; nobody is frozen or referred. -/
def scenarioB_state : LedgerState :=
  { portfolios := fun v =>
      if v = 2 then
        { balance_usd := 5000, is_frozen := false, is_merchant := true,
          initial_deposit_amount := none }
      else
        { balance_usd := 0, is_frozen := false, is_merchant := false,
          initial_deposit_amount := none },
    affiliates := fun _ => none }

/-- Scenario E's ledger: user 1 holds 500 before the withdrawal; user 2 is
the counterparty merchant. -/
def scenarioE_state : LedgerState :=
  { portfolios := fun v =>
      if v = 2 then
        { balance_usd := 0, is_frozen := false, is_merchant := true,
          initial_deposit_amount := none }
      else
        { balance_usd := 500, is_frozen := false, is_merchant := false,
          initial_deposit_amount := none },
    affiliates := fun _ => none }

/-- The withdrawal record created by `withdraw_funds` for Scenario E:
gross 100 escrowed, 5% fee annotation, awaiting user confirmation. -/
def scenarioE_withdrawal : Withdrawal :=
  { user := 1, amount := 100, method := .BANK, merchant := some 2,
    user_confirmation_required := true, status := .PENDING,
    withdrawal_notes := some
      { fee_percentage := 35 / 10, fee_amount := 5, user_receives := 95,
        total_amount_processed := 100 } }

/-- Sequentially process (approve) a list of deposits, accumulating the
balance-mutation log — the repeated deposit approvals of one user. -/
def approve_deposit_list : LedgerState → List Deposit → LedgerState × List BalanceMutation
  | s, [] => (s, [])
  | s, d :: ds =>
    let r := process_deposit s d
    let rest := approve_deposit_list r.state ds
    (rest.1, r.log ++ rest.2)

/-- Ledger for the C4 witness: user 1 was referred by user 9 and the edge
is not yet funded; all balances start at 0. -/
def referral_state : LedgerState :=
  { portfolios := fun _ =>
      { balance_usd := 0, is_frozen := false, is_merchant := false,
        initial_deposit_amount := none },
    affiliates := fun v =>
      if v = 1 then some { referrer := 9, has_funded_wallet := false } else none }

/-- A ledger whose merchant (user 2) is frozen yet holds 2000. -/
def frozen_merchant_state : LedgerState :=
  { portfolios := fun v =>
      if v = 2 then
        { balance_usd := 2000, is_frozen := true, is_merchant := true,
          initial_deposit_amount := none }
      else
        { balance_usd := 0, is_frozen := false, is_merchant := false,
          initial_deposit_amount := none },
    affiliates := fun _ => none }

/-- Asset table used by concrete swap-creation witnesses: the reference
asset `USDT` (id 0) and a destination asset (id 1). -/
def witness_assets : List SyntheticAsset :=
  [ { id := 0, symbol := "USDT", price_usd := 1 },
    { id := 1, symbol := "MOON", price_usd := 2 } ]

/-- Ledger for the C6 counterexample: user 7 holds exactly the 100 to be
escrowed; no referrals. -/
def C6_state : LedgerState :=
  { portfolios := fun _ =>
      { balance_usd := 100, is_frozen := false, is_merchant := false,
        initial_deposit_amount := none },
    affiliates := fun _ => none }

/-- When the swap is `PENDING` and due (or forced), `process_swap` takes
its settlement branch; the whole result record, spelled out. -/
theorem process_swap_eq_of_due (s : LedgerState) (assets : Nat → SyntheticAsset)
    (swap : SwapRequest) (current_time : Int) (force_process : Bool)
    (hstat : swap.status = .PENDING)
    (hdue : force_process = true ∨ swap.swap_time ≤ current_time) :
    process_swap s assets swap current_time force_process =
      { outcome := .completed,
        swap := { swap with
                  swap_back_amount := settlement_return assets swap,
                  status := .COMPLETED },
        state := creditBalance s swap.user (settlement_return assets swap),
        new_trades :=
          [ { user := swap.user, asset := swap.from_asset, trade_type := .SELL,
              quantity := swap.swap_amount,
              price_at_trade := (assets swap.from_asset).price_usd },
            { user := swap.user, asset := swap.to_asset, trade_type := .BUY,
              quantity := swap.swap_amount * (assets swap.from_asset).price_usd /
                swap.original_to_asset_price,
              price_at_trade := swap.original_to_asset_price },
            { user := swap.user, asset := swap.to_asset, trade_type := .SELL,
              quantity := swap.swap_amount * (assets swap.from_asset).price_usd /
                swap.original_to_asset_price,
              price_at_trade := (assets swap.to_asset).price_usd },
            { user := swap.user, asset := swap.swap_back_asset, trade_type := .BUY,
              quantity := settlement_return assets swap,
              price_at_trade := (assets swap.swap_back_asset).price_usd } ],
        log := [(swap.user, settlement_return assets swap)] } := by
  rcases hdue with hf | ht
  · subst hf
    simp [process_swap, hstat, settlement_return]
  · simp [process_swap, hstat, not_lt.mpr ht, settlement_return]

/-- C1: Swap settlement computes
`destination_amount = source_amount * source_price_now / original_to_asset_price`
and `return_amount = destination_amount * destination_price_now /
return_asset_price_now`, credits the requester's balance with
`return_amount`, records four trade legs (sell-source,
buy-destination-at-creation-price, sell-destination-at-current-price,
buy-return-asset), sets status `COMPLETED`, and reports
`profit_loss = return_amount - source_amount`; Scenario C (100 units,
original price 2.00, settlement destination price 2.20, source and return
prices 1.00) yields destination 50, return 110, profit +10. -/
theorem C1_swap_settlement (s : LedgerState) (assets : Nat → SyntheticAsset)
    (swap : SwapRequest) (current_time : Int) (force_process : Bool)
    (hstat : swap.status = .PENDING)
    (hdue : force_process = true ∨ swap.swap_time ≤ current_time) :
    (process_swap s assets swap current_time force_process).outcome = .completed ∧
    (process_swap s assets swap current_time force_process).swap.swap_back_amount =
      swap.swap_amount * (assets swap.from_asset).price_usd / swap.original_to_asset_price *
        (assets swap.to_asset).price_usd / (assets swap.swap_back_asset).price_usd ∧
    (process_swap s assets swap current_time force_process).swap.status = .COMPLETED ∧
    ((process_swap s assets swap current_time force_process).state.portfolios swap.user).balance_usd =
      (s.portfolios swap.user).balance_usd + settlement_return assets swap ∧
    (process_swap s assets swap current_time force_process).new_trades =
      [ { user := swap.user, asset := swap.from_asset, trade_type := .SELL,
          quantity := swap.swap_amount,
          price_at_trade := (assets swap.from_asset).price_usd },
        { user := swap.user, asset := swap.to_asset, trade_type := .BUY,
          quantity := swap.swap_amount * (assets swap.from_asset).price_usd /
            swap.original_to_asset_price,
          price_at_trade := swap.original_to_asset_price },
        { user := swap.user, asset := swap.to_asset, trade_type := .SELL,
          quantity := swap.swap_amount * (assets swap.from_asset).price_usd /
            swap.original_to_asset_price,
          price_at_trade := (assets swap.to_asset).price_usd },
        { user := swap.user, asset := swap.swap_back_asset, trade_type := .BUY,
          quantity := settlement_return assets swap,
          price_at_trade := (assets swap.swap_back_asset).price_usd } ] ∧
    swap_profit_loss (process_swap s assets swap current_time force_process).swap =
      settlement_return assets swap - swap.swap_amount := by
  rw [process_swap_eq_of_due s assets swap current_time force_process hstat hdue]
  refine ⟨rfl, rfl, rfl, ?_, rfl, rfl⟩
  simp [creditBalance]

/-- Witness for C1: Scenario C evaluated — destination amount 50
(quantity of the second trade leg), return amount 110 credited, profit +10. -/
theorem C1_swap_settlement_witness :
    scenarioC_swap.status = .PENDING ∧
    (1000 : Int) ≤ 2000 ∧
    (process_swap scenarioC_state scenarioC_assets scenarioC_swap 2000 false).outcome
      = .completed ∧
    (process_swap scenarioC_state scenarioC_assets scenarioC_swap 2000 false).swap.swap_back_amount
      = 110 ∧
    ((process_swap scenarioC_state scenarioC_assets scenarioC_swap 2000 false).state.portfolios 7).balance_usd
      = 110 ∧
    ((process_swap scenarioC_state scenarioC_assets scenarioC_swap 2000 false).new_trades.map
        Trade.quantity)
      = [100, 50, 50, 110] ∧
    swap_profit_loss (process_swap scenarioC_state scenarioC_assets scenarioC_swap 2000 false).swap
      = 10 := by
  have h := C1_swap_settlement scenarioC_state scenarioC_assets scenarioC_swap 2000 false
    rfl (Or.inr (by norm_num [scenarioC_swap]))
  obtain ⟨h1, h2, h3, h4, h5, h6⟩ := h
  refine ⟨rfl, by norm_num, h1, ?_, ?_, ?_, ?_⟩
  · rw [h2]; norm_num [scenarioC_assets, scenarioC_swap]
  · norm_num [scenarioC_assets, scenarioC_swap, scenarioC_state,
      settlement_return] at h4
    exact h4
  · rw [h5]; norm_num [scenarioC_assets, scenarioC_swap, settlement_return]
  · rw [h6]; norm_num [scenarioC_assets, scenarioC_swap, settlement_return]

/-- With the return-asset price flat at the source-asset price, the
settlement return simplifies to `amount * latest_to_price / original_to_price`. -/
theorem settlement_return_flat (assets : Nat → SyntheticAsset) (swap : SwapRequest)
    (hfrom : 0 < (assets swap.from_asset).price_usd)
    (horig : 0 < swap.original_to_asset_price)
    (hflat : (assets swap.swap_back_asset).price_usd = (assets swap.from_asset).price_usd) :
    settlement_return assets swap =
      swap.swap_amount * (assets swap.to_asset).price_usd / swap.original_to_asset_price := by
  unfold settlement_return
  rw [hflat]
  field_simp
  ring

/-- C8: for a swap with positive amount and positive prices settled while
the return-asset price equals the source-asset price, the settlement
return exceeds the source amount exactly when the destination price rose
above `original_to_asset_price`, and the sign of
`profit_loss = return_amount - source_amount` matches the direction of the
destination-asset price movement. -/
theorem C8_profit_sign (s : LedgerState) (assets : Nat → SyntheticAsset)
    (swap : SwapRequest) (current_time : Int) (force_process : Bool)
    (hstat : swap.status = .PENDING)
    (hdue : force_process = true ∨ swap.swap_time ≤ current_time)
    (hamt : 0 < swap.swap_amount)
    (horig : 0 < swap.original_to_asset_price)
    (hfrom : 0 < (assets swap.from_asset).price_usd)
    (hflat : (assets swap.swap_back_asset).price_usd = (assets swap.from_asset).price_usd) :
    (swap.original_to_asset_price < (assets swap.to_asset).price_usd →
      swap.swap_amount <
        (process_swap s assets swap current_time force_process).swap.swap_back_amount ∧
      0 < swap_profit_loss (process_swap s assets swap current_time force_process).swap) ∧
    ((assets swap.to_asset).price_usd = swap.original_to_asset_price →
      swap_profit_loss (process_swap s assets swap current_time force_process).swap = 0) ∧
    ((assets swap.to_asset).price_usd < swap.original_to_asset_price →
      swap_profit_loss (process_swap s assets swap current_time force_process).swap < 0) := by
  rw [process_swap_eq_of_due s assets swap current_time force_process hstat hdue]
  have hkey := settlement_return_flat assets swap hfrom horig hflat
  simp only [swap_profit_loss, hkey]
  refine ⟨fun hup => ?_, fun heq => ?_, fun hdown => ?_⟩
  · have hlt : swap.swap_amount <
        swap.swap_amount * (assets swap.to_asset).price_usd / swap.original_to_asset_price := by
      rw [lt_div_iff horig]
      exact (mul_lt_mul_left hamt).mpr hup
    exact ⟨hlt, by linarith⟩
  · rw [heq, mul_div_assoc, div_self (ne_of_gt horig), mul_one]
    ring
  · have hlt : swap.swap_amount * (assets swap.to_asset).price_usd /
        swap.original_to_asset_price < swap.swap_amount := by
      rw [div_lt_iff horig]
      exact (mul_lt_mul_left hamt).mpr hdown
    linarith

/-- Witness for C8: Scenario C's inputs (destination price moved 2.00 →
2.20 up, return price flat at 1.00) give a return of 110 > 100 and a
positive profit. -/
theorem C8_profit_sign_witness :
    ((2 : ℚ) < 11 / 5) ∧
    ((100 : ℚ) <
      (process_swap scenarioC_state scenarioC_assets scenarioC_swap 2000 false).swap.swap_back_amount ∧
      0 < swap_profit_loss (process_swap scenarioC_state scenarioC_assets scenarioC_swap 2000 false).swap) := by
  have h := C8_profit_sign scenarioC_state scenarioC_assets scenarioC_swap 2000 false
    rfl (Or.inr (by norm_num [scenarioC_swap]))
    (by norm_num [scenarioC_swap]) (by norm_num [scenarioC_swap])
    (by norm_num [scenarioC_swap, scenarioC_assets])
    (by norm_num [scenarioC_swap, scenarioC_assets])
  obtain ⟨hup, _, _⟩ := h
  have h2 := hup (by norm_num [scenarioC_swap, scenarioC_assets])
  refine ⟨by norm_num, ?_, h2.2⟩
  have := h2.1
  norm_num [scenarioC_swap] at this
  exact this

/-- A `COMPLETED` swap fails `process_swap`'s status filter: the attempt
observes `DoesNotExist` and performs no mutation. -/
theorem process_swap_noop_of_completed (s : LedgerState)
    (assets : Nat → SyntheticAsset) (swap : SwapRequest) (current_time : Int)
    (force_process : Bool) (h : swap.status = .COMPLETED) :
    process_swap s assets swap current_time force_process =
      { outcome := .notFound, swap := swap, state := s, new_trades := [], log := [] } := by
  simp [process_swap, h]

/-- Every attempt on a `COMPLETED` swap observes the StateConflict outcome
with an empty mutation log. -/
theorem run_swap_attempts_completed (assets : Nat → SyntheticAsset)
    (current_time : Int) (force_process : Bool) :
    ∀ (n : Nat) (s : LedgerState) (swap : SwapRequest), swap.status = .COMPLETED →
      (run_swap_attempts assets current_time force_process n s swap).2.2 =
        List.replicate n (SwapOutcome.notFound, ([] : List BalanceMutation))
  | 0, _, _, _ => rfl
  | n + 1, s, swap, h => by
    simp only [run_swap_attempts,
      process_swap_noop_of_completed s assets swap current_time force_process h]
    rw [run_swap_attempts_completed assets current_time force_process n s swap h]
    rfl

/-- A deposit that is not `PENDING` fails `process_deposit`'s status
filter: the attempt observes `DoesNotExist` and performs no mutation. -/
theorem process_deposit_noop_of_not_pending (s : LedgerState) (d : Deposit)
    (h : d.status ≠ .PENDING) :
    process_deposit s d =
      { outcome := .notFoundOrProcessed, deposit := d, state := s, log := [] } := by
  simp [process_deposit, h]

/-- Every attempt on a non-`PENDING` deposit observes the StateConflict
outcome with an empty mutation log. -/
theorem run_deposit_attempts_not_pending :
    ∀ (n : Nat) (s : LedgerState) (d : Deposit), d.status ≠ .PENDING →
      (run_deposit_attempts n s d).2.2 =
        List.replicate n (ProcOutcome.notFoundOrProcessed, ([] : List BalanceMutation))
  | 0, _, _, _ => rfl
  | n + 1, s, d, h => by
    simp only [run_deposit_attempts, process_deposit_noop_of_not_pending s d h]
    rw [run_deposit_attempts_not_pending n s d h]
    rfl

/-- A withdrawal that is not `PENDING` fails the guarded fetch of
`user_decline_withdrawal`: the attempt observes the StateConflict outcome
and performs no mutation. -/
theorem user_decline_noop_of_not_pending (s : LedgerState) (w : Withdrawal)
    (requester : Nat) (h : w.status ≠ .PENDING) :
    user_decline_withdrawal s w requester =
      { outcome := .notFoundOrProcessed, withdrawal := w, state := s, log := [] } := by
  simp [user_decline_withdrawal, h]

/-- Every decline attempt on a non-`PENDING` withdrawal observes the
StateConflict outcome with an empty mutation log. -/
theorem run_decline_attempts_not_pending (requester : Nat) :
    ∀ (n : Nat) (s : LedgerState) (w : Withdrawal), w.status ≠ .PENDING →
      (run_decline_attempts requester n s w).2.2 =
        List.replicate n (ProcOutcome.notFoundOrProcessed, ([] : List BalanceMutation))
  | 0, _, _, _ => rfl
  | n + 1, s, w, h => by
    simp only [run_decline_attempts, user_decline_noop_of_not_pending s w requester h]
    rw [run_decline_attempts_not_pending requester n s w h]
    rfl

/-- A depositor without a referral edge triggers no bonus mutation. -/
theorem process_referral_bonus_log_of_no_edge (s : LedgerState) (d : Deposit)
    (haff : s.affiliates d.user = none) :
    (process_referral_bonus s d).2 = [] := by
  by_cases hinit : (s.portfolios d.user).initial_deposit_amount = none
  · simp [process_referral_bonus, hinit, haff]
  · simp [process_referral_bonus, hinit, haff]

/-- `process_deposit` on a `PENDING` deposit: the result spelled out. -/
theorem process_deposit_eq_of_pending (s : LedgerState) (d : Deposit)
    (hstat : d.status = .PENDING) :
    process_deposit s d =
      { outcome := .success, deposit := { d with status := .APPROVED },
        state := creditBalance
          (deposit_save s d.status { d with status := .APPROVED }).1 d.user d.amount,
        log := (deposit_save s d.status { d with status := .APPROVED }).2 ++
          [(d.user, d.amount)] } := by
  simp [process_deposit, hstat]

/-- `user_decline_withdrawal` on an eligible withdrawal: the result
spelled out. -/
theorem user_decline_eq_of_pending (s : LedgerState) (w : Withdrawal)
    (requester : Nat) (huser : w.user = requester) (hstat : w.status = .PENDING)
    (hconf : w.user_confirmation_required = true) :
    user_decline_withdrawal s w requester =
      { outcome := .success,
        withdrawal := { w with status := .REJECTED, user_confirmation_required := false },
        state := creditBalance s requester w.amount,
        log := [(requester, w.amount)] } := by
  simp [user_decline_withdrawal, huser, hstat, hconf]

/-- C5: across any serialization of concurrent settlement attempts on the
same Swap, Deposit, or Withdrawal row (each attempt is one
`transaction.atomic` block whose `select_for_update` fetch re-checks the
status), exactly the first attempt succeeds and mutates balances; every
other attempt observes the not-found/already-processed StateConflict
outcome with an empty mutation log. -/
theorem C5_concurrent_settlement :
    (∀ (s : LedgerState) (assets : Nat → SyntheticAsset) (swap : SwapRequest)
        (current_time : Int) (force_process : Bool) (n : Nat),
      swap.status = .PENDING →
      (force_process = true ∨ swap.swap_time ≤ current_time) →
      (run_swap_attempts assets current_time force_process (n + 1) s swap).2.2 =
        (SwapOutcome.completed, [(swap.user, settlement_return assets swap)]) ::
          List.replicate n (SwapOutcome.notFound, ([] : List BalanceMutation))) ∧
    (∀ (s : LedgerState) (d : Deposit) (n : Nat),
      d.status = .PENDING →
      s.affiliates d.user = none →
      (run_deposit_attempts (n + 1) s d).2.2 =
        (ProcOutcome.success, [(d.user, d.amount)]) ::
          List.replicate n (ProcOutcome.notFoundOrProcessed, ([] : List BalanceMutation))) ∧
    (∀ (s : LedgerState) (w : Withdrawal) (requester : Nat) (n : Nat),
      w.user = requester →
      w.status = .PENDING →
      w.user_confirmation_required = true →
      (run_decline_attempts requester (n + 1) s w).2.2 =
        (ProcOutcome.success, [(requester, w.amount)]) ::
          List.replicate n (ProcOutcome.notFoundOrProcessed, ([] : List BalanceMutation))) := by
  refine ⟨?_, ?_, ?_⟩
  · intro s assets swap current_time force_process n hstat hdue
    simp only [run_swap_attempts,
      process_swap_eq_of_due s assets swap current_time force_process hstat hdue]
    rw [run_swap_attempts_completed assets current_time force_process n _ _ rfl]
  · intro s d n hstat haff
    have hlog : (deposit_save s d.status { d with status := .APPROVED }).2 = [] := by
      rw [hstat]
      simp only [deposit_save]
      rw [if_pos (by simp)]
      exact process_referral_bonus_log_of_no_edge s _ haff
    simp only [run_deposit_attempts, process_deposit_eq_of_pending s d hstat, hlog]
    rw [run_deposit_attempts_not_pending n _ _ (by simp)]
    rfl
  · intro s w requester n huser hstat hconf
    simp only [run_decline_attempts,
      user_decline_eq_of_pending s w requester huser hstat hconf]
    rw [run_decline_attempts_not_pending requester n _ _ (by simp)]

/-- Witness for C5 (Scenario D): two serialized force-settlement attempts
on the same pending swap — the first completes and credits 110, the second
observes the StateConflict outcome with no mutation; likewise for two
deposit-processing attempts and two withdrawal-decline attempts. -/
theorem C5_concurrent_settlement_witness :
    (run_swap_attempts scenarioC_assets 2000 true 2 scenarioC_state scenarioC_swap).2.2 =
      [(SwapOutcome.completed, [(7, 110)]), (SwapOutcome.notFound, [])] ∧
    (run_deposit_attempts 2 scenarioC_state witness_deposit).2.2 =
      [(ProcOutcome.success, [(1, 1000)]), (ProcOutcome.notFoundOrProcessed, [])] ∧
    (run_decline_attempts 1 2 scenarioC_state witness_withdrawal).2.2 =
      [(ProcOutcome.success, [(1, 100)]), (ProcOutcome.notFoundOrProcessed, [])] := by
  obtain ⟨hs, hd, hw⟩ := C5_concurrent_settlement
  refine ⟨?_, ?_, ?_⟩
  · have h := hs scenarioC_state scenarioC_assets scenarioC_swap 2000 true 1 rfl (Or.inl rfl)
    rw [h]
    norm_num [settlement_return, scenarioC_assets, scenarioC_swap, List.replicate]
  · have h := hd scenarioC_state witness_deposit 1 rfl rfl
    rw [h]
    norm_num [witness_deposit, List.replicate]
  · have h := hw scenarioC_state witness_withdrawal 1 1 rfl rfl rfl
    rw [h]
    norm_num [witness_withdrawal, List.replicate]

/-- Balances are untouched by the referral-bonus step when the depositor
has no referral edge (only `initial_deposit_amount` may be set). -/
theorem process_referral_bonus_balance_of_no_edge (s : LedgerState) (d : Deposit)
    (haff : s.affiliates d.user = none) (v : Nat) :
    (((process_referral_bonus s d).1.portfolios v)).balance_usd =
      ((s.portfolios v)).balance_usd := by
  by_cases hinit : (s.portfolios d.user).initial_deposit_amount = none
  · by_cases hv : v = d.user
    · simp [process_referral_bonus, hinit, haff, hv]
    · simp [process_referral_bonus, hinit, haff, hv]
  · simp [process_referral_bonus, hinit, haff]

/-- When the status is transitioning into `APPROVED`, `Deposit.save` runs
the referral-bonus step. -/
theorem deposit_save_of_approving (s : LedgerState) (old_status : TxStatus)
    (d : Deposit) (hold : old_status ≠ .APPROVED) (hnew : d.status = .APPROVED) :
    deposit_save s old_status d = process_referral_bonus s d := by
  simp [deposit_save, hold, hnew]

/-- Crediting one user leaves every other user's balance unchanged. -/
theorem creditBalance_balance_other (s : LedgerState) (u v : Nat) (amt : ℚ)
    (h : v ≠ u) :
    ((creditBalance s u amt).portfolios v).balance_usd =
      ((s.portfolios v)).balance_usd := by
  simp [creditBalance, h]

/-- Crediting a user adds exactly the delta to that user's balance. -/
theorem creditBalance_balance_self (s : LedgerState) (u : Nat) (amt : ℚ) :
    ((creditBalance s u amt).portfolios u).balance_usd =
      ((s.portfolios u)).balance_usd + amt := by
  simp [creditBalance]

/-- `creditBalance` does not touch the referral edges. -/
theorem creditBalance_affiliates (s : LedgerState) (u : Nat) (amt : ℚ) :
    (creditBalance s u amt).affiliates = s.affiliates := rfl

/-- `merchant_approve_deposit` on an eligible deposit with sufficient
merchant balance: the result spelled out. -/
theorem merchant_approve_deposit_eq (s : LedgerState) (d : Deposit) (m : Nat)
    (hm : d.merchant = some m) (hstat : d.status = .PENDING)
    (har : d.merchant_action_required = true)
    (hbal : ¬ (s.portfolios m).balance_usd < deposit_base d) :
    merchant_approve_deposit s d m =
      { outcome := .success,
        deposit := { d with status := .APPROVED, merchant_action_required := false },
        state := creditBalance
          (deposit_save (creditBalance s m (-(deposit_base d))) d.status
            { d with status := .APPROVED, merchant_action_required := false }).1
          d.user (deposit_base d),
        log := (m, -(deposit_base d)) ::
          (deposit_save (creditBalance s m (-(deposit_base d))) d.status
            { d with status := .APPROVED, merchant_action_required := false }).2 ++
          [(d.user, deposit_base d)] } := by
  rcases hnd : d.deposit_notes with _ | notes
  · simp only [deposit_base, hnd] at hbal
    simp [merchant_approve_deposit, hm, hstat, har, hnd, hbal, deposit_base]
  · simp only [deposit_base, hnd] at hbal
    simp [merchant_approve_deposit, hm, hstat, har, hnd, hbal, deposit_base]

/-- C2: a merchant-mediated deposit of base amount `B` is quoted at
creation with `fee = 0.035 * B` and `total = 1.035 * B`, recorded in the
fee annotation; merchant approval debits exactly `B` from the merchant and
credits exactly `B` to the depositor (the fee is kept implicitly), setting
the record `APPROVED`; merchant decline sets the record `REJECTED` with no
balance change for either party. -/
theorem C2_merchant_mediated_deposit (s : LedgerState) (u m : Nat) (B : ℚ)
    (hfrozen : (s.portfolios u).is_frozen = false)
    (hmerch : (s.portfolios m).is_merchant = true)
    (hmu : m ≠ u)
    (haff : s.affiliates u = none)
    (hbal : ¬ (s.portfolios m).balance_usd < B) :
    ∃ d, deposit_funds_bank s u m B = (.created, some d) ∧
      d.amount = B ∧ d.status = .PENDING ∧ d.user = u ∧ d.merchant = some m ∧
      (∃ notes, d.deposit_notes = some notes ∧
        notes.fee_percentage = 35 / 10 ∧
        notes.fee_amount = 35 / 1000 * B ∧
        notes.total_amount_with_fee = 1035 / 1000 * B ∧
        notes.base_amount = B) ∧
      ((merchant_approve_deposit s d m).outcome = .success ∧
        ((merchant_approve_deposit s d m).state.portfolios m).balance_usd
          = (s.portfolios m).balance_usd - B ∧
        ((merchant_approve_deposit s d m).state.portfolios u).balance_usd
          = (s.portfolios u).balance_usd + B ∧
        (merchant_approve_deposit s d m).deposit.status = .APPROVED) ∧
      ((merchant_decline_deposit s d m).outcome = .success ∧
        (merchant_decline_deposit s d m).state = s ∧
        (merchant_decline_deposit s d m).log = [] ∧
        (merchant_decline_deposit s d m).deposit.status = .REJECTED) := by
  have hum : u ≠ m := Ne.symm hmu
  refine ⟨{ user := u, amount := B, method := .BANK_TRANSFER, merchant := some m,
            merchant_action_required := true, status := .PENDING,
            deposit_notes := some
              { fee_percentage := 35 / 10, fee_amount := B * (35 / 1000),
                total_amount_with_fee := B + B * (35 / 1000), base_amount := B } },
    ?_, rfl, rfl, rfl, rfl, ⟨_, rfl, rfl, by ring, by ring, rfl⟩, ?_, ?_⟩
  · simp [deposit_funds_bank, hfrozen, hmerch]
  · have hbal' : ¬ (s.portfolios m).balance_usd <
        deposit_base
        ({ user := u, amount := B, method := DepositMethod.BANK_TRANSFER,
           merchant := some m, merchant_action_required := true, status := TxStatus.PENDING,
           deposit_notes := some
             { fee_percentage := 35 / 10, fee_amount := B * (35 / 1000),
               total_amount_with_fee := B + B * (35 / 1000), base_amount := B } } : Deposit) := hbal
    have heq := merchant_approve_deposit_eq s _ m rfl rfl rfl hbal'
    rw [heq]
    refine ⟨rfl, ?_, ?_, rfl⟩
    · simp only [deposit_base]
      rw [deposit_save_of_approving _ _ _ (by simp) rfl]
      rw [creditBalance_balance_other _ _ _ _ hmu]
      rw [process_referral_bonus_balance_of_no_edge _ _ haff m]
      rw [creditBalance_balance_self]
      ring
    · simp only [deposit_base]
      rw [deposit_save_of_approving _ _ _ (by simp) rfl]
      rw [creditBalance_balance_self]
      rw [process_referral_bonus_balance_of_no_edge _ _ haff u]
      rw [creditBalance_balance_other _ _ _ _ hum]
  · exact ⟨by simp [merchant_decline_deposit], by simp [merchant_decline_deposit],
      by simp [merchant_decline_deposit], by simp [merchant_decline_deposit]⟩

/-- Witness for C2 (Scenario B): base 1000 quotes fee 35 and total 1035;
approval moves the merchant 5000 → 4000 and the depositor 0 → 1000;
decline leaves the ledger untouched. -/
theorem C2_merchant_mediated_deposit_witness :
    ∃ d, deposit_funds_bank scenarioB_state 1 2 1000 = (.created, some d) ∧
      (∃ notes, d.deposit_notes = some notes ∧
        notes.fee_amount = 35 ∧ notes.total_amount_with_fee = 1035) ∧
      ((merchant_approve_deposit scenarioB_state d 2).state.portfolios 2).balance_usd = 4000 ∧
      ((merchant_approve_deposit scenarioB_state d 2).state.portfolios 1).balance_usd = 1000 ∧
      (merchant_decline_deposit scenarioB_state d 2).state = scenarioB_state ∧
      (merchant_decline_deposit scenarioB_state d 2).deposit.status = .REJECTED := by
  obtain ⟨d, hcreate, _, _, _, _, ⟨notes, hnotes, _, hfee, htot, _⟩,
      ⟨_, hm, hu, _⟩, ⟨_, hdecl, _, hstat⟩⟩ :=
    C2_merchant_mediated_deposit scenarioB_state 1 2 1000
      (by simp [scenarioB_state]) (by simp [scenarioB_state]) (by norm_num)
      (by simp [scenarioB_state]) (by norm_num [scenarioB_state])
  refine ⟨d, hcreate, ⟨notes, hnotes, by rw [hfee]; norm_num, by rw [htot]; norm_num⟩,
    ?_, ?_, hdecl, hstat⟩
  · rw [hm]; norm_num [scenarioB_state]
  · rw [hu]; norm_num [scenarioB_state]

/-- C3 evaluated on Scenario E: creating the P2P withdrawal escrows the
gross 100 (balance 500 → 400); the user's decline refunds the full gross
(back to 500), and so does the admin-panel bulk reject action — but the
admin endpoint `reject_withdrawal` (views.py 161–176) sets `REJECTED`
while leaving the sender at 400: the escrowed amount is never refunded. -/
theorem C3_admin_reject_does_not_refund :
    ((withdraw_funds scenarioE_state 1 100 (.BANK 2)).state.portfolios 1).balance_usd = 400 ∧
    (withdraw_funds scenarioE_state 1 100 (.BANK 2)).withdrawal = some scenarioE_withdrawal ∧
    (reject_withdrawal (withdraw_funds scenarioE_state 1 100 (.BANK 2)).state
        scenarioE_withdrawal).outcome = .success ∧
    (reject_withdrawal (withdraw_funds scenarioE_state 1 100 (.BANK 2)).state
        scenarioE_withdrawal).withdrawal.status = .REJECTED ∧
    (reject_withdrawal (withdraw_funds scenarioE_state 1 100 (.BANK 2)).state
        scenarioE_withdrawal).log = [] ∧
    ((reject_withdrawal (withdraw_funds scenarioE_state 1 100 (.BANK 2)).state
        scenarioE_withdrawal).state.portfolios 1).balance_usd = 400 ∧
    (400 : ℚ) ≠ 500 ∧
    ((user_decline_withdrawal (withdraw_funds scenarioE_state 1 100 (.BANK 2)).state
        scenarioE_withdrawal 1).state.portfolios 1).balance_usd = 500 ∧
    ((admin_reject_withdrawal (withdraw_funds scenarioE_state 1 100 (.BANK 2)).state
        scenarioE_withdrawal).state.portfolios 1).balance_usd = 500 := by
  refine ⟨?_, ?_, ?_, ?_, ?_, ?_, by norm_num, ?_, ?_⟩
  · norm_num [withdraw_funds, scenarioE_state, creditBalance]
  · norm_num [withdraw_funds, scenarioE_state, scenarioE_withdrawal]
  · norm_num [reject_withdrawal, scenarioE_withdrawal]
  · norm_num [reject_withdrawal, scenarioE_withdrawal]
  · norm_num [reject_withdrawal, scenarioE_withdrawal]
  · norm_num [reject_withdrawal, withdraw_funds, scenarioE_state,
      scenarioE_withdrawal, creditBalance]
  · norm_num [user_decline_withdrawal, withdraw_funds, scenarioE_state,
      scenarioE_withdrawal, creditBalance]
  · norm_num [admin_reject_withdrawal, withdraw_funds, scenarioE_state,
      scenarioE_withdrawal, creditBalance]

/-- The referral-bonus step on a depositor whose edge is already funded:
no mutation, edges untouched, balances untouched. -/
theorem process_referral_bonus_of_funded (s : LedgerState) (d : Deposit) (r : Nat)
    (haff : s.affiliates d.user = some { referrer := r, has_funded_wallet := true }) :
    (process_referral_bonus s d).2 = [] ∧
    (process_referral_bonus s d).1.affiliates = s.affiliates ∧
    ∀ v, ((process_referral_bonus s d).1.portfolios v).balance_usd =
      ((s.portfolios v)).balance_usd := by
  by_cases hinit : (s.portfolios d.user).initial_deposit_amount = none
  · refine ⟨by simp [process_referral_bonus, hinit, haff], ?_, ?_⟩
    · simp [process_referral_bonus, hinit, haff]
    · intro v
      by_cases hv : v = d.user
      · simp [process_referral_bonus, hinit, haff, hv]
      · simp [process_referral_bonus, hinit, haff, hv]
  · exact ⟨by simp [process_referral_bonus, hinit, haff],
      by simp [process_referral_bonus, hinit, haff],
      fun v => by simp [process_referral_bonus, hinit, haff]⟩

/-- The referral-bonus step on a depositor whose edge is not yet funded:
the flag flips to true, the referrer is credited 15% of this deposit's
amount, and nothing else moves. -/
theorem process_referral_bonus_of_unfunded (s : LedgerState) (d : Deposit) (r : Nat)
    (haff : s.affiliates d.user = some { referrer := r, has_funded_wallet := false }) :
    (process_referral_bonus s d).2 = [(r, d.amount * (15 / 100))] ∧
    (process_referral_bonus s d).1.affiliates d.user =
      some { referrer := r, has_funded_wallet := true } ∧
    ((process_referral_bonus s d).1.portfolios r).balance_usd =
      ((s.portfolios r)).balance_usd + d.amount * (15 / 100) ∧
    ∀ v, v ≠ r → ((process_referral_bonus s d).1.portfolios v).balance_usd =
      ((s.portfolios v)).balance_usd := by
  by_cases hinit : (s.portfolios d.user).initial_deposit_amount = none
  · refine ⟨by simp [process_referral_bonus, hinit, haff], ?_, ?_, ?_⟩
    · simp [process_referral_bonus, hinit, haff, creditBalance]
    · by_cases hr : r = d.user
      · simp [process_referral_bonus, hinit, haff, creditBalance, hr]
      · simp [process_referral_bonus, hinit, haff, creditBalance, hr]
    · intro v hv
      by_cases hvd : v = d.user
      · subst hvd
        simp [process_referral_bonus, hinit, haff, creditBalance, hv, Ne.symm hv]
      · simp [process_referral_bonus, hinit, haff, creditBalance, hvd, hv]
  · refine ⟨by simp [process_referral_bonus, hinit, haff], ?_, ?_, ?_⟩
    · simp [process_referral_bonus, hinit, haff, creditBalance]
    · simp [process_referral_bonus, hinit, haff, creditBalance]
    · intro v hv
      simp [process_referral_bonus, hinit, haff, creditBalance, hv]

/-- Approving one `PENDING` deposit of a user whose referral edge is
already funded pays no bonus: the edge is untouched and the referrer's
balance (referrer distinct from the depositor) is unchanged; the only
mutation is the depositor's credit. -/
theorem process_deposit_funded_step (s : LedgerState) (d : Deposit) (u r : Nat)
    (hdu : d.user = u) (hru : r ≠ u)
    (haff : s.affiliates u = some { referrer := r, has_funded_wallet := true }) :
    (process_deposit s d).state.affiliates u =
      some { referrer := r, has_funded_wallet := true } ∧
    ((process_deposit s d).state.portfolios r).balance_usd =
      ((s.portfolios r)).balance_usd ∧
    (process_deposit s d).log.filter (fun e => e.1 = r) = [] := by
  by_cases hstat : d.status = .PENDING
  · rw [process_deposit_eq_of_pending s d hstat]
    have haff' : s.affiliates (({ d with status := .APPROVED } : Deposit)).user =
        some { referrer := r, has_funded_wallet := true } := by
      simpa [hdu] using haff
    have hsave := deposit_save_of_approving s d.status
      { d with status := .APPROVED } (by simp [hstat]) rfl
    obtain ⟨hlog, hedges, hbal⟩ := process_referral_bonus_of_funded s
      { d with status := .APPROVED } r haff'
    refine ⟨?_, ?_, ?_⟩
    · show (creditBalance _ d.user d.amount).affiliates u = _
      rw [creditBalance_affiliates, hsave, hedges]
      exact haff
    · show ((creditBalance _ d.user d.amount).portfolios r).balance_usd = _
      rw [creditBalance_balance_other _ _ _ _ (by rw [hdu]; exact hru), hsave]
      exact hbal r
    · show ((deposit_save _ _ _).2 ++ [(d.user, d.amount)]).filter _ = _
      rw [hsave, hlog]
      simp [hdu, Ne.symm hru]
  · rw [process_deposit_noop_of_not_pending s d hstat]
    exact ⟨haff, rfl, rfl⟩

/-- Once a user's referral edge is funded, any further sequence of that
user's deposit approvals pays the referrer nothing and never resets the
flag. -/
theorem approve_deposit_list_funded (u r : Nat) (hru : r ≠ u) :
    ∀ (ds : List Deposit) (s : LedgerState),
      s.affiliates u = some { referrer := r, has_funded_wallet := true } →
      (∀ d2 ∈ ds, d2.user = u) →
      (approve_deposit_list s ds).1.affiliates u =
        some { referrer := r, has_funded_wallet := true } ∧
      ((approve_deposit_list s ds).1.portfolios r).balance_usd =
        ((s.portfolios r)).balance_usd ∧
      (approve_deposit_list s ds).2.filter (fun e => e.1 = r) = []
  | [], s, haff, _ => ⟨haff, rfl, rfl⟩
  | d :: ds, s, haff, hus => by
    obtain ⟨h1, h2, h3⟩ := process_deposit_funded_step s d u r
      (hus d (List.mem_cons_self d ds)) hru haff
    obtain ⟨g1, g2, g3⟩ := approve_deposit_list_funded u r hru ds
      (process_deposit s d).state h1
      (fun d2 hd2 => hus d2 (List.mem_cons_of_mem d hd2))
    refine ⟨g1, ?_, ?_⟩
    · show ((approve_deposit_list (process_deposit s d).state ds).1.portfolios r).balance_usd = _
      rw [g2, h2]
    · show ((process_deposit s d).log ++ (approve_deposit_list _ ds).2).filter _ = _
      rw [List.filter_append, h3, g3]
      rfl

/-- C4: for a referred user, the bonus is paid at most once — on the first
deposit approval with `has_funded_wallet = false` the flag flips to true
(and no later approval resets it) and the referrer is credited exactly 15%
of that deposit's amount; across the whole sequence of approvals the
referrer's mutations consist of that single credit. -/
theorem C4_referral_bonus_once (s : LedgerState) (u r : Nat) (hru : r ≠ u)
    (haff : s.affiliates u = some { referrer := r, has_funded_wallet := false })
    (d : Deposit) (ds : List Deposit)
    (hdu : d.user = u) (hstat : d.status = .PENDING)
    (hds : ∀ d2 ∈ ds, d2.user = u) :
    (approve_deposit_list s (d :: ds)).1.affiliates u =
      some { referrer := r, has_funded_wallet := true } ∧
    ((approve_deposit_list s (d :: ds)).1.portfolios r).balance_usd =
      ((s.portfolios r)).balance_usd + d.amount * (15 / 100) ∧
    (approve_deposit_list s (d :: ds)).2.filter (fun e => e.1 = r) =
      [(r, d.amount * (15 / 100))] := by
  have hur : u ≠ r := Ne.symm hru
  have haff' : s.affiliates (({ d with status := .APPROVED } : Deposit)).user =
      some { referrer := r, has_funded_wallet := false } := by
    simpa [hdu] using haff
  have hsave := deposit_save_of_approving s d.status
    { d with status := .APPROVED } (by simp [hstat]) rfl
  obtain ⟨blog, baff, bbalr, bother⟩ := process_referral_bonus_of_unfunded s
    { d with status := .APPROVED } r haff'
  have hstep := process_deposit_eq_of_pending s d hstat
  have hst1aff : (process_deposit s d).state.affiliates u =
      some { referrer := r, has_funded_wallet := true } := by
    rw [hstep]
    show (creditBalance _ d.user d.amount).affiliates u = _
    rw [creditBalance_affiliates, hsave]
    simpa [hdu] using baff
  have hst1bal : ((process_deposit s d).state.portfolios r).balance_usd =
      ((s.portfolios r)).balance_usd + d.amount * (15 / 100) := by
    rw [hstep]
    show ((creditBalance _ d.user d.amount).portfolios r).balance_usd = _
    rw [creditBalance_balance_other _ _ _ _ (by rw [hdu]; exact hru), hsave]
    exact bbalr
  have hlog1 : (process_deposit s d).log.filter (fun e => e.1 = r) =
      [(r, d.amount * (15 / 100))] := by
    rw [hstep]
    show ((deposit_save _ _ _).2 ++ [(d.user, d.amount)]).filter _ = _
    rw [hsave, blog]
    simp [hdu, hur]
  obtain ⟨g1, g2, g3⟩ := approve_deposit_list_funded u r hru ds
    (process_deposit s d).state hst1aff hds
  refine ⟨?_, ?_, ?_⟩
  · show (approve_deposit_list (process_deposit s d).state ds).1.affiliates u = _
    exact g1
  · show ((approve_deposit_list (process_deposit s d).state ds).1.portfolios r).balance_usd = _
    rw [g2, hst1bal]
  · show ((process_deposit s d).log ++ (approve_deposit_list _ ds).2).filter _ = _
    rw [List.filter_append, hlog1, g3]
    rfl

/-- Witness for C4: user 1's deposits of 1000 then 2000 are both approved;
the referrer (user 9) is credited 150 = 15% of the first deposit only, and
the funded flag ends (and stays) true. -/
theorem C4_referral_bonus_once_witness :
    (approve_deposit_list referral_state
        [{ user := 1, amount := 1000, method := .BANK_TRANSFER, merchant := none,
           merchant_action_required := false, status := .PENDING, deposit_notes := none },
         { user := 1, amount := 2000, method := .BANK_TRANSFER, merchant := none,
           merchant_action_required := false, status := .PENDING, deposit_notes := none }]).1.affiliates 1 =
      some { referrer := 9, has_funded_wallet := true } ∧
    ((approve_deposit_list referral_state
        [{ user := 1, amount := 1000, method := .BANK_TRANSFER, merchant := none,
           merchant_action_required := false, status := .PENDING, deposit_notes := none },
         { user := 1, amount := 2000, method := .BANK_TRANSFER, merchant := none,
           merchant_action_required := false, status := .PENDING, deposit_notes := none }]).1.portfolios 9).balance_usd = 150 ∧
    (approve_deposit_list referral_state
        [{ user := 1, amount := 1000, method := .BANK_TRANSFER, merchant := none,
           merchant_action_required := false, status := .PENDING, deposit_notes := none },
         { user := 1, amount := 2000, method := .BANK_TRANSFER, merchant := none,
           merchant_action_required := false, status := .PENDING, deposit_notes := none }]).2.filter
      (fun e => e.1 = 9) = [(9, 150)] := by
  obtain ⟨h1, h2, h3⟩ := C4_referral_bonus_once referral_state 1 9 (by norm_num)
    (by simp [referral_state])
    { user := 1, amount := 1000, method := .BANK_TRANSFER, merchant := none,
      merchant_action_required := false, status := .PENDING, deposit_notes := none }
    [{ user := 1, amount := 2000, method := .BANK_TRANSFER, merchant := none,
       merchant_action_required := false, status := .PENDING, deposit_notes := none }]
    rfl rfl (by simp)
  refine ⟨h1, ?_, ?_⟩
  · rw [h2]; norm_num [referral_state]
  · rw [h3]; norm_num

/-- C7 counterexample: `merchant_approve_deposit` performs no frozen-flag
check — with the merchant's account frozen, approval still succeeds and
debits the frozen merchant (2000 → 1000), instead of failing with
`AccountFrozen` and leaving balances untouched. -/
theorem C7_frozen_merchant_debit_succeeds :
    (frozen_merchant_state.portfolios 2).is_frozen = true ∧
    (merchant_approve_deposit frozen_merchant_state witness_deposit 2).outcome = .success ∧
    ((merchant_approve_deposit frozen_merchant_state witness_deposit 2).state.portfolios 2).balance_usd
      = 1000 ∧
    ((merchant_approve_deposit frozen_merchant_state witness_deposit 2).state.portfolios 1).balance_usd
      = 1000 := by
  refine ⟨rfl, ?_, ?_, ?_⟩
  · norm_num [merchant_approve_deposit, frozen_merchant_state, witness_deposit]
  · norm_num [merchant_approve_deposit, frozen_merchant_state, witness_deposit,
      deposit_save, process_referral_bonus, creditBalance]
    rfl
  · norm_num [merchant_approve_deposit, frozen_merchant_state, witness_deposit,
      deposit_save, process_referral_bonus, creditBalance]
    rfl

/-- C7 amended: withdrawal creation and swap creation reject a frozen
debiting account and an insufficient balance before any mutation; the
merchant-side debit of deposit approval rejects an insufficient balance
before any mutation but performs no frozen-flag check. -/
theorem C7_amended_debit_guards :
    (∀ (s : LedgerState) (u : Nat) (amt : ℚ) (req : WithdrawRequest),
      (s.portfolios u).is_frozen = true →
      (withdraw_funds s u amt req).outcome = .frozen ∧
      (withdraw_funds s u amt req).state = s ∧
      (withdraw_funds s u amt req).log = []) ∧
    (∀ (s : LedgerState) (u : Nat) (amt : ℚ) (req : WithdrawRequest),
      (s.portfolios u).is_frozen = false → ¬ amt ≤ 0 →
      (s.portfolios u).balance_usd < amt →
      (withdraw_funds s u amt req).outcome = .insufficientBalance ∧
      (withdraw_funds s u amt req).state = s ∧
      (withdraw_funds s u amt req).log = []) ∧
    (∀ (s : LedgerState) (assets : List SyntheticAsset) (user f t b : Nat)
        (amt : ℚ) (st ct : Int),
      (s.portfolios user).is_frozen = true →
      (swap_tokens s assets user f t b amt st ct).outcome = .frozen ∧
      (swap_tokens s assets user f t b amt st ct).state = s ∧
      (swap_tokens s assets user f t b amt st ct).log = [] ∧
      (swap_tokens s assets user f t b amt st ct).swap = none) ∧
    (∀ (s : LedgerState) (assets : List SyntheticAsset) (user f t b : Nat)
        (amt : ℚ) (st ct : Int) (fa ta ba : SyntheticAsset),
      (s.portfolios user).is_frozen = false →
      assets.any (fun a => a.symbol = "USDT") = true →
      findAsset assets f = some fa → findAsset assets t = some ta →
      findAsset assets b = some ba →
      fa.symbol = "USDT" → ba.symbol = "USDT" → ¬ fa.id = ta.id → ¬ amt ≤ 0 →
      (s.portfolios user).balance_usd < amt →
      (swap_tokens s assets user f t b amt st ct).outcome = .insufficientBalance ∧
      (swap_tokens s assets user f t b amt st ct).state = s ∧
      (swap_tokens s assets user f t b amt st ct).log = [] ∧
      (swap_tokens s assets user f t b amt st ct).swap = none) ∧
    (∀ (s : LedgerState) (d : Deposit) (m : Nat),
      d.merchant = some m → d.status = .PENDING →
      d.merchant_action_required = true →
      (s.portfolios m).balance_usd < deposit_base d →
      (merchant_approve_deposit s d m).outcome = .insufficientBalance ∧
      (merchant_approve_deposit s d m).state = s ∧
      (merchant_approve_deposit s d m).log = []) := by
  refine ⟨?_, ?_, ?_, ?_, ?_⟩
  · intro s u amt req hfr
    refine ⟨?_, ?_, ?_⟩ <;> simp [withdraw_funds, hfr]
  · intro s u amt req hfr hamt hbal
    refine ⟨?_, ?_, ?_⟩ <;> simp [withdraw_funds, hfr, hamt, hbal]
  · intro s assets user f t b amt st ct hfr
    refine ⟨?_, ?_, ?_, ?_⟩ <;> simp [swap_tokens, hfr]
  · intro s assets user f t b amt st ct fa ta ba hfr hany hfa hta hba hfas hbas hne hamt hbal
    refine ⟨?_, ?_, ?_, ?_⟩ <;>
      simp [swap_tokens, hfr, hany, hfa, hta, hba, hfas, hbas, hne, hamt, hbal]
  · intro s d m hm hstat har hbal
    rcases hnd : d.deposit_notes with _ | notes
    · simp only [deposit_base, hnd] at hbal
      refine ⟨?_, ?_, ?_⟩ <;>
        simp [merchant_approve_deposit, hm, hstat, har, hnd, hbal]
    · simp only [deposit_base, hnd] at hbal
      refine ⟨?_, ?_, ?_⟩ <;>
        simp [merchant_approve_deposit, hm, hstat, har, hnd, hbal]

/-- Witness for the amended C7: a frozen user's withdrawal and swap are
rejected; an unfrozen user without funds gets InsufficientFunds from both;
a merchant short of the base amount gets InsufficientFunds from deposit
approval — all with no state change. -/
theorem C7_amended_debit_guards_witness :
    ((withdraw_funds frozen_merchant_state 2 50 .EXTERNAL).outcome = .frozen ∧
      (withdraw_funds frozen_merchant_state 2 50 .EXTERNAL).state = frozen_merchant_state) ∧
    ((withdraw_funds frozen_merchant_state 1 50 .EXTERNAL).outcome = .insufficientBalance ∧
      (withdraw_funds frozen_merchant_state 1 50 .EXTERNAL).state = frozen_merchant_state) ∧
    ((swap_tokens frozen_merchant_state witness_assets 2 0 1 0 50 400 0).outcome = .frozen) ∧
    ((swap_tokens frozen_merchant_state witness_assets 1 0 1 0 50 400 0).outcome
        = .insufficientBalance ∧
      (swap_tokens frozen_merchant_state witness_assets 1 0 1 0 50 400 0).swap = none) ∧
    ((merchant_approve_deposit scenarioC_state witness_deposit 2).outcome
        = .insufficientBalance ∧
      (merchant_approve_deposit scenarioC_state witness_deposit 2).state = scenarioC_state) := by
  obtain ⟨h1, h2, h3, h4, h5⟩ := C7_amended_debit_guards
  refine ⟨?_, ?_, ?_, ?_, ?_⟩
  · have := h1 frozen_merchant_state 2 50 .EXTERNAL (by simp [frozen_merchant_state])
    exact ⟨this.1, this.2.1⟩
  · have := h2 frozen_merchant_state 1 50 .EXTERNAL (by simp [frozen_merchant_state])
      (by norm_num) (by norm_num [frozen_merchant_state])
    exact ⟨this.1, this.2.1⟩
  · exact (h3 frozen_merchant_state witness_assets 2 0 1 0 50 400 0
      (by simp [frozen_merchant_state])).1
  · have := h4 frozen_merchant_state witness_assets 1 0 1 0 50 400 0
      { id := 0, symbol := "USDT", price_usd := 1 }
      { id := 1, symbol := "MOON", price_usd := 2 }
      { id := 0, symbol := "USDT", price_usd := 1 }
      (by simp [frozen_merchant_state]) (by simp [witness_assets]) rfl rfl rfl
      rfl rfl (by norm_num) (by norm_num) (by norm_num [frozen_merchant_state])
    exact ⟨this.1, this.2.2.2⟩
  · have := h5 scenarioC_state witness_deposit 2 rfl rfl rfl
      (by norm_num [scenarioC_state, witness_deposit, deposit_base])
    exact ⟨this.1, this.2.1⟩

/-- C6 counterexample: the batch consisting of one swap creation (escrow
−100 at destination price 2.00) and its settlement (credit +110 after the
price moved to 2.20) has mutation sum +10 ≠ 0 — the settlement credit is
not paired with an equal-and-opposite debit, and no merchant fee is
involved. -/
theorem C6_swap_batch_not_zero_sum :
    (swap_tokens C6_state witness_assets 7 0 1 0 100 1000 0).outcome = .created ∧
    (swap_tokens C6_state witness_assets 7 0 1 0 100 1000 0).swap = some scenarioC_swap ∧
    logSum ((swap_tokens C6_state witness_assets 7 0 1 0 100 1000 0).log ++
      (process_swap (swap_tokens C6_state witness_assets 7 0 1 0 100 1000 0).state
        scenarioC_assets scenarioC_swap 2000 false).log) = 10 ∧
    (10 : ℚ) ≠ 0 := by
  refine ⟨?_, ?_, ?_, by norm_num⟩
  · norm_num [swap_tokens, C6_state, witness_assets, findAsset]
  · norm_num [swap_tokens, C6_state, witness_assets, findAsset, scenarioC_swap]
  · norm_num [swap_tokens, C6_state, witness_assets, findAsset, scenarioC_swap,
      process_swap, scenarioC_assets, logSum]

/-- C6 amended: internal transfers are zero-sum (debit paired with an
equal-and-opposite credit) and a merchant-mediated deposit approval is
zero-sum between merchant and depositor; but a swap's creation escrows
`swap_amount` while its settlement credits `swap_back_amount`, so a swap
batch nets to the profit/loss, and the referral bonus is a credit with no
paired debit — the zero-net-creation property does not hold across all
Settlement Engine operations. -/
theorem C6_amended_mutation_sums :
    (∀ (s : LedgerState) (u : Nat) (amt : ℚ) (r : Nat),
      (s.portfolios u).is_frozen = false → ¬ amt ≤ 0 →
      ¬ (s.portfolios u).balance_usd < amt → ¬ r = u →
      logSum (withdraw_funds s u amt (.INTERNAL (some r))).log = 0) ∧
    (∀ (s : LedgerState) (d : Deposit) (m : Nat),
      d.merchant = some m → d.status = .PENDING →
      d.merchant_action_required = true →
      ¬ (s.portfolios m).balance_usd < deposit_base d →
      s.affiliates d.user = none →
      logSum (merchant_approve_deposit s d m).log = 0) ∧
    (∀ (s : LedgerState) (assets : List SyntheticAsset) (user f t b : Nat)
        (amt : ℚ) (st ct : Int) (fa ta ba : SyntheticAsset),
      (s.portfolios user).is_frozen = false →
      assets.any (fun a => a.symbol = "USDT") = true →
      findAsset assets f = some fa → findAsset assets t = some ta →
      findAsset assets b = some ba →
      fa.symbol = "USDT" → ba.symbol = "USDT" → ¬ fa.id = ta.id → ¬ amt ≤ 0 →
      ¬ (s.portfolios user).balance_usd < amt →
      ¬ st ≤ ct → ¬ st - ct < 300 → ¬ st - ct > 2592000 →
      logSum (swap_tokens s assets user f t b amt st ct).log = -amt) ∧
    (∀ (s : LedgerState) (assets : Nat → SyntheticAsset) (swap : SwapRequest)
        (current_time : Int) (force_process : Bool),
      swap.status = .PENDING →
      (force_process = true ∨ swap.swap_time ≤ current_time) →
      logSum (process_swap s assets swap current_time force_process).log =
        (process_swap s assets swap current_time force_process).swap.swap_back_amount) ∧
    (∀ (s : LedgerState) (d : Deposit) (r : Nat),
      s.affiliates d.user = some { referrer := r, has_funded_wallet := false } →
      logSum (process_referral_bonus s d).2 = d.amount * (15 / 100)) := by
  refine ⟨?_, ?_, ?_, ?_, ?_⟩
  · intro s u amt r hfr hamt hbal hru
    simp [withdraw_funds, hfr, hamt, hbal, hru, logSum]
  · intro s d m hm hstat har hbal haff
    have key : ∀ (s1 : LedgerState) (d1 : Deposit),
        s1.affiliates d1.user = none → d1.status = .APPROVED →
        (deposit_save s1 TxStatus.PENDING d1).2 = [] := by
      intro s1 d1 h1 h2
      rw [deposit_save_of_approving _ _ _ (by simp) h2]
      exact process_referral_bonus_log_of_no_edge _ _ h1
    rcases hnd : d.deposit_notes with _ | notes
    · simp only [deposit_base, hnd] at hbal
      simp [merchant_approve_deposit, hm, hstat, har, hnd, hbal, logSum, key,
        creditBalance_affiliates, haff]
    · simp only [deposit_base, hnd] at hbal
      simp [merchant_approve_deposit, hm, hstat, har, hnd, hbal, logSum, key,
        creditBalance_affiliates, haff]
  · intro s assets user f t b amt st ct fa ta ba hfr hany hfa hta hba hfas hbas
      hne hamt hbal htlt hshort hlong
    simp [swap_tokens, hfr, hany, hfa, hta, hba, hfas, hbas, hne, hamt, hbal,
      htlt, hshort, hlong, logSum]
  · intro s assets swap current_time force_process hstat hdue
    rw [process_swap_eq_of_due s assets swap current_time force_process hstat hdue]
    simp [logSum]
  · intro s d r haff
    rw [(process_referral_bonus_of_unfunded s d r haff).1]
    simp [logSum]

/-- Witness for the amended C6: an internal transfer of 40 sums to zero;
Scenario B's approval sums to zero; Scenario C's creation log sums to
−100 and its settlement log to the 110 credited back (batch +10); a first
funded deposit of 1000 pays an unpaired referral credit of 150. -/
theorem C6_amended_mutation_sums_witness :
    logSum (withdraw_funds scenarioE_state 1 40 (.INTERNAL (some 3))).log = 0 ∧
    logSum (merchant_approve_deposit scenarioB_state witness_deposit 2).log = 0 ∧
    logSum (swap_tokens C6_state witness_assets 7 0 1 0 100 1000 0).log = -100 ∧
    logSum (process_swap scenarioC_state scenarioC_assets scenarioC_swap 2000 false).log
      = 110 ∧
    logSum (process_referral_bonus referral_state
      { user := 1, amount := 1000, method := .BANK_TRANSFER, merchant := none,
        merchant_action_required := false, status := .APPROVED,
        deposit_notes := none }).2 = 150 := by
  obtain ⟨h1, h2, h3, h4, h5⟩ := C6_amended_mutation_sums
  refine ⟨?_, ?_, ?_, ?_, ?_⟩
  · exact h1 scenarioE_state 1 40 3 (by simp [scenarioE_state]) (by norm_num)
      (by norm_num [scenarioE_state]) (by norm_num)
  · exact h2 scenarioB_state witness_deposit 2 rfl rfl rfl
      (by norm_num [scenarioB_state, witness_deposit, deposit_base])
      (by simp [scenarioB_state, witness_deposit])
  · exact h3 C6_state witness_assets 7 0 1 0 100 1000 0
      { id := 0, symbol := "USDT", price_usd := 1 }
      { id := 1, symbol := "MOON", price_usd := 2 }
      { id := 0, symbol := "USDT", price_usd := 1 }
      (by simp [C6_state]) (by simp [witness_assets]) rfl rfl rfl rfl rfl
      (by norm_num) (by norm_num) (by norm_num [C6_state]) (by norm_num)
      (by norm_num) (by norm_num)
  · have h := h4 scenarioC_state scenarioC_assets scenarioC_swap 2000 false rfl
      (Or.inr (by norm_num [scenarioC_swap]))
    rw [h, process_swap_eq_of_due scenarioC_state scenarioC_assets scenarioC_swap
      2000 false rfl (Or.inr (by norm_num [scenarioC_swap]))]
    norm_num [settlement_return, scenarioC_assets, scenarioC_swap]
  · have h := h5 referral_state
      { user := 1, amount := 1000, method := .BANK_TRANSFER, merchant := none,
        merchant_action_required := false, status := .APPROVED,
        deposit_notes := none } 9 (by simp [referral_state])
    rw [h]
    norm_num

/-- C10: `swap_tokens` rejects a request whose destination asset is the
source asset (no record, no balance change, no mutation), and — since the
source asset must be `USDT` and asset symbols are unique — every swap it
does create has a destination asset distinct from the reference asset
`USDT`. -/
theorem C10_swap_destination_not_usdt (s : LedgerState)
    (assets : List SyntheticAsset) (user f t b : Nat) (amt : ℚ) (st ct : Int)
    (huniq : ∀ a ∈ assets, ∀ a2 ∈ assets, a.symbol = a2.symbol → a = a2) :
    (∀ fa ta, findAsset assets f = some fa → findAsset assets t = some ta →
      fa.id = ta.id →
      (swap_tokens s assets user f t b amt st ct).swap = none ∧
      (swap_tokens s assets user f t b amt st ct).state = s ∧
      (swap_tokens s assets user f t b amt st ct).log = []) ∧
    (∀ ta, findAsset assets t = some ta →
      (swap_tokens s assets user f t b amt st ct).outcome = .created →
      ta.symbol ≠ "USDT" ∧
      ∃ sw, (swap_tokens s assets user f t b amt st ct).swap = some sw ∧
        sw.to_asset = ta.id) := by
  constructor
  · intro fa ta hfa hta hid
    by_cases hfr : (s.portfolios user).is_frozen
    · simp [swap_tokens, hfr]
    · by_cases hany : assets.any (fun a => a.symbol = "USDT")
      · rcases hb : findAsset assets b with _ | ba
        · simp [swap_tokens, hfr, hany, hfa, hta, hb]
        · by_cases hfas : fa.symbol ≠ "USDT"
          · simp [swap_tokens, hfr, hany, hfa, hta, hb, hfas]
          · by_cases hbas : ba.symbol ≠ "USDT"
            · simp [swap_tokens, hfr, hany, hfa, hta, hb, hfas, hbas]
            · simp [swap_tokens, hfr, hany, hfa, hta, hb, hfas, hbas, hid]
      · simp [swap_tokens, hfr, hany]
  · intro ta hta hcr
    by_cases hfr : (s.portfolios user).is_frozen
    · simp [swap_tokens, hfr] at hcr
    by_cases hany : assets.any (fun a => a.symbol = "USDT")
    case neg => simp [swap_tokens, hfr, hany] at hcr
    rcases hf : findAsset assets f with _ | fa
    · simp [swap_tokens, hfr, hany, hf, hta] at hcr
    rcases hb : findAsset assets b with _ | ba
    · simp [swap_tokens, hfr, hany, hf, hta, hb] at hcr
    by_cases hfas : fa.symbol ≠ "USDT"
    · simp [swap_tokens, hfr, hany, hf, hta, hb, hfas] at hcr
    by_cases hbas : ba.symbol ≠ "USDT"
    · simp [swap_tokens, hfr, hany, hf, hta, hb, hfas, hbas] at hcr
    by_cases hid : fa.id = ta.id
    · simp [swap_tokens, hfr, hany, hf, hta, hb, hfas, hbas, hid] at hcr
    by_cases hamt : amt ≤ 0
    · simp [swap_tokens, hfr, hany, hf, hta, hb, hfas, hbas, hid, hamt] at hcr
    by_cases hbal : (s.portfolios user).balance_usd < amt
    · simp [swap_tokens, hfr, hany, hf, hta, hb, hfas, hbas, hid, hamt, hbal] at hcr
    by_cases ht1 : st ≤ ct
    · simp [swap_tokens, hfr, hany, hf, hta, hb, hfas, hbas, hid, hamt, hbal, ht1] at hcr
    by_cases ht2 : st - ct < 300
    · simp [swap_tokens, hfr, hany, hf, hta, hb, hfas, hbas, hid, hamt, hbal,
        ht1, ht2] at hcr
    by_cases ht3 : st - ct > 2592000
    · simp [swap_tokens, hfr, hany, hf, hta, hb, hfas, hbas, hid, hamt, hbal,
        ht1, ht2, ht3] at hcr
    refine ⟨?_, ?_⟩
    · intro htasym
      rw [not_not] at hfas
      have hfa_mem := List.mem_of_find?_eq_some hf
      have hta_mem := List.mem_of_find?_eq_some hta
      exact hid (congrArg SyntheticAsset.id
        (huniq fa hfa_mem ta hta_mem (by rw [hfas, htasym])))
    · refine ⟨{ user := user, from_asset := fa.id, to_asset := ta.id,
                swap_back_asset := ba.id, swap_amount := amt, swap_back_amount := 0,
                original_to_asset_price := ta.price_usd, swap_time := st,
                status := .PENDING }, ?_, rfl⟩
      simp [swap_tokens, hfr, hany, hf, hta, hb, hfas, hbas, hid, hamt, hbal,
        ht1, ht2, ht3]

/-- Witness for C10: requesting destination = source (both asset 0, USDT)
creates nothing and leaves the ledger untouched; the successfully created
swap of Scenario C has destination asset 1 (`MOON`), not `USDT`. -/
theorem C10_swap_destination_not_usdt_witness :
    ((swap_tokens C6_state witness_assets 7 0 0 0 100 1000 0).swap = none ∧
      (swap_tokens C6_state witness_assets 7 0 0 0 100 1000 0).state = C6_state ∧
      (swap_tokens C6_state witness_assets 7 0 0 0 100 1000 0).log = []) ∧
    (({ id := 1, symbol := "MOON", price_usd := 2 } : SyntheticAsset).symbol ≠ "USDT" ∧
      ∃ sw, (swap_tokens C6_state witness_assets 7 0 1 0 100 1000 0).swap = some sw ∧
        sw.to_asset = 1) := by
  have huniq : ∀ a ∈ witness_assets, ∀ a2 ∈ witness_assets,
      a.symbol = a2.symbol → a = a2 := by
    intro a ha a2 ha2 hsym
    simp only [witness_assets, List.mem_cons, List.not_mem_nil, or_false] at ha ha2
    rcases ha with h | h <;> rcases ha2 with g | g <;> subst h <;> subst g <;>
      first
        | rfl
        | simp at hsym
  constructor
  · obtain ⟨hsame, _⟩ := C10_swap_destination_not_usdt C6_state witness_assets
      7 0 0 0 100 1000 0 huniq
    exact hsame { id := 0, symbol := "USDT", price_usd := 1 }
      { id := 0, symbol := "USDT", price_usd := 1 } rfl rfl rfl
  · obtain ⟨_, hcreated⟩ := C10_swap_destination_not_usdt C6_state witness_assets
      7 0 1 0 100 1000 0 huniq
    exact hcreated { id := 1, symbol := "MOON", price_usd := 2 } rfl
      (by norm_num [swap_tokens, C6_state, witness_assets, findAsset])

/-- C9 counterexample: not every monetary column of the persisted records
is a fixed-point decimal column — `Transaction.amount` (the amount of
every Deposit and Withdrawal, models.py line 246), the swap amounts and
the live asset price are `FloatField`s. -/
theorem C9_monetary_fields_not_all_decimal :
    ("Transaction.amount", DjangoFieldKind.FloatField) ∈ monetary_model_fields ∧
    monetary_model_fields.all (fun p => p.2.isDecimal) = false := by
  constructor
  · simp [monetary_model_fields]
  · rfl

/-- C9 amended: the stored balance (`UserPortfolio.balance_usd`), the
creation-time anchor price (`SwapRequest.original_to_asset_price`) and the
candlestick prices are decimal columns, but transaction amounts
(`Transaction.amount`), swap amounts (`swap_amount`, `swap_back_amount`)
and the live asset prices (`price_usd`) are float columns; the settlement
code converts them through `Decimal(str(...))` before computing. -/
theorem C9_amended_field_kinds :
    ("UserPortfolio.balance_usd", DjangoFieldKind.DecimalField 20 4)
      ∈ monetary_model_fields ∧
    ("SwapRequest.original_to_asset_price", DjangoFieldKind.DecimalField 20 10)
      ∈ monetary_model_fields ∧
    ("CandlestickData.close_price", DjangoFieldKind.DecimalField 20 10)
      ∈ monetary_model_fields ∧
    ("Transaction.amount", DjangoFieldKind.FloatField) ∈ monetary_model_fields ∧
    ("SwapRequest.swap_amount", DjangoFieldKind.FloatField) ∈ monetary_model_fields ∧
    ("SwapRequest.swap_back_amount", DjangoFieldKind.FloatField) ∈ monetary_model_fields ∧
    ("SyntheticAsset.price_usd", DjangoFieldKind.FloatField) ∈ monetary_model_fields := by
  refine ⟨?_, ?_, ?_, ?_, ?_, ?_, ?_⟩ <;> simp [monetary_model_fields]
